import Mathlib

/-!
Verification development for the DH-pro front-end repository.

Each page-level React component that the specification talks about is
shallowly embedded here: component state becomes a structure, each event
handler becomes a pure function from its inputs (including the values the
browser or the backend would supply, such as the current time or an HTTP
response) to the new state together with the HTTP request it issues, if
any.  JavaScript truthiness on strings and numbers is made explicit
through small helper functions, JavaScript Map objects are modelled as
functions into Option, and JavaScript numbers appearing in the claims are
modelled as exact rationals or integers (noted at each place where the
source uses floating point literals).
-/

/-- Numeric value of a list of decimal digit characters, most significant
first, as read by the JavaScript number parsers. -/
def digitsToNat (ds : List Char) : Nat :=
  ds.foldl (fun acc c => 10 * acc + (c.toNat - 48)) 0

/-- Model of the JavaScript global parseInt on base-10 inputs: skip leading
whitespace, read an optional sign and then a maximal run of decimal digits;
NaN (here: none) when no digit is found.  Hexadecimal inputs are not
modelled; no claim depends on them. -/
def parseIntModel (s : String) : Option Int :=
  let cs := s.data.dropWhile Char.isWhitespace
  let signRest : Int × List Char :=
    match cs with
    | '-' :: rest => (-1, rest)
    | '+' :: rest => (1, rest)
    | _ => (1, cs)
  let ds := signRest.2.takeWhile Char.isDigit
  if ds.isEmpty then none
  else some (signRest.1 * (digitsToNat ds : Int))

/-- Character-level phase of the parseFloat model: skip leading
whitespace, read an optional sign, a maximal run of digits, and an
optional fractional part after a dot; NaN (here: none) when no digit is
found in either part.  The result is the signed mantissa (all parsed
digits read as one integer) together with the number of fractional
digits.  Exponent suffixes are not modelled; no claim depends on them. -/
def parseFloatParts (s : String) : Option (Int × Nat) :=
  let cs := s.data.dropWhile Char.isWhitespace
  let signRest : Int × List Char :=
    match cs with
    | '-' :: rest => (-1, rest)
    | '+' :: rest => (1, rest)
    | _ => (1, cs)
  let intDigits := signRest.2.takeWhile Char.isDigit
  let afterInt := signRest.2.dropWhile Char.isDigit
  let fracDigits :=
    match afterInt with
    | '.' :: rest => rest.takeWhile Char.isDigit
    | _ => []
  if intDigits.isEmpty && fracDigits.isEmpty then none
  else some (signRest.1 * (digitsToNat (intDigits ++ fracDigits) : Int), fracDigits.length)

/-- Model of the JavaScript global parseFloat on decimal literals: the
parsed mantissa divided by ten to the number of fractional digits. -/
def parseFloatModel (s : String) : Option ℚ :=
  (parseFloatParts s).map (fun p => (p.1 : ℚ) / (10 : ℚ) ^ p.2)

/-- JavaScript truthiness check for a nullable string: null and the empty
string are the falsy values of that type. -/
def jsFalsyOptStr : Option String → Bool
  | none => true
  | some s => s == ""

/-- JavaScript String.prototype.trim produces the empty string exactly when
every character of the receiver is whitespace; this is that condition. -/
def jsTrimIsEmpty (s : String) : Bool :=
  s.data.all Char.isWhitespace

namespace Subjects

/-- A chapter as used by the Subjects page (src/unnamed/part_001).  Only
the fields the embedded logic reads are kept; order is the numeric sort
key the page sorts and locks by. -/
structure Chapter where
  id : Nat
  name : String
  order : Int
  deriving DecidableEq, Repr

/-- The authenticated user as seen through useAuth; only the role is read
by the embedded logic. -/
structure User where
  role : String
  deriving DecidableEq, Repr

/-- The check, used throughout the page, that the optional user exists
and has the student role. -/
def isStudentUser : Option User → Bool
  | none => false
  | some u => u.role == "student"

/-- Stable insertion of a chapter into a list already sorted by order:
the new element goes before the first element with a strictly larger
order, after all earlier elements with an equal order. -/
def insertByOrder (c : Chapter) : List Chapter → List Chapter
  | [] => [c]
  | d :: ds => if d.order < c.order then d :: insertByOrder c ds else c :: d :: ds

/-- Model of the sort in isChapterLocked, line 119 of the page:
subjectChapters sorted ascending by order with the stable
Array.prototype.sort comparator (a, b) => a.order - b.order.  A stable
sort is determined by the comparator, so this stable insertion sort
yields the same list as the engine sort. -/
def sortByOrder : List Chapter → List Chapter
  | [] => []
  | c :: cs => insertByOrder c (sortByOrder cs)

/-- isChapterLocked from the Subjects page, lines 112 to 137: non-students
are never locked; the first chapter of the sorted list is never locked;
any later chapter is locked exactly when the id of the chapter before it
in the sorted list is absent from the completedChapters set fetched from
/quizzes/my-attempts.  The none branches are unreachable at the call
sites, where chapter is always drawn from subjectChapters (the JavaScript
would throw there instead). -/
def isChapterLocked (user : Option User) (completedChapters : List Nat)
    (chapter : Chapter) (subjectChapters : List Chapter) : Bool :=
  match user with
  | none => false
  | some u =>
    if u.role ≠ "student" then false
    else
      let sortedChapters := sortByOrder subjectChapters
      match sortedChapters.findIdx? (fun c => c.id == chapter.id) with
      | none => false
      | some 0 => false
      | some (i + 1) =>
        match sortedChapters.get? i with
        | none => false
        | some previousChapter => ! (completedChapters.contains previousChapter.id)

/-- The observable effect of handleQuizAccess, lines 139 to 148: either
the blocking error toast or a navigation to the quiz route of the given
chapter id. -/
inductive QuizAccessAction where
  | lockedToast : QuizAccessAction
  | navigateQuiz : Nat → QuizAccessAction
  deriving DecidableEq, Repr

/-- handleQuizAccess from the Subjects page, lines 139 to 148. -/
def handleQuizAccess (user : Option User) (completedChapters : List Nat)
    (chapterId : Nat) (chapter : Chapter) (subjectChapters : List Chapter) : QuizAccessAction :=
  if isChapterLocked user completedChapters chapter subjectChapters then .lockedToast
  else .navigateQuiz chapterId

/-- The forceLocked override computed per rendered chapter, line 277:
the user is a student and the chapter order is above 1; the source marks
it TEMPORARY and applies it regardless of completion status. -/
def forceLocked (user : Option User) (chapter : Chapter) : Bool :=
  isStudentUser user && decide (1 < chapter.order)

/-- The expression locked || forceLocked that drives the locked styling of
the chapter row, the Lock icon, and the disabled prop of the quiz access
Button (lines 285 to 347). -/
def quizButtonDisabled (user : Option User) (completedChapters : List Nat)
    (chapter : Chapter) (subjectChapters : List Chapter) : Bool :=
  isChapterLocked user completedChapters chapter subjectChapters || forceLocked user chapter

end Subjects

namespace QuizTaking

/-- A question as delivered by POST /quizzes/(quizId)/start
(src/src/pages/QuizTaking.tsx, interface Question). -/
structure Question where
  id : Nat
  question_text : String
  question_type : String
  difficulty : String
  bloom_level : String
  options : Option (List (String × String))
  deriving DecidableEq, Repr

/-- The quiz metadata of the started attempt (interface Quiz). -/
structure Quiz where
  id : Nat
  chapter_id : Nat
  title : String
  description : String
  quiz_type : String
  time_limit : Option Int
  passing_score : Int
  deriving DecidableEq, Repr

/-- The payload of the start response (interface QuizStartResponse). -/
structure QuizStartResponse where
  attempt_id : Nat
  quiz : Quiz
  questions : List Question
  deriving DecidableEq, Repr

/-- The component state of QuizTaking: each useState hook becomes a
field.  The two JavaScript Map objects are modelled as functions from a
question id to the optional stored value; Map.prototype.get returns
undefined (none) for absent keys and set overwrites the key. -/
structure QuizState where
  loading : Bool
  quiz : Option Quiz
  attemptId : Option Nat
  questions : List Question
  currentQuestionIndex : Nat
  answers : Nat → Option String
  questionStartTime : Nat
  questionTimes : Nat → Option Nat
  submitting : Bool

/-- Overwriting update of a modelled Map, as new Map(m) followed by
m.set k v. -/
def mapSet (m : Nat → Option α) (k : Nat) (v : α) : Nat → Option α :=
  fun q => if q = k then some v else m q

/-- questions[currentQuestionIndex], line 111.  Out of bounds the
JavaScript value is undefined and the handlers reading its id would
throw; the render guard at line 194 keeps the handlers unreachable then,
and the index bound invariant proved below keeps the index in range, so
the default is never read at a reachable call. -/
def currentQuestion (s : QuizState) : Question :=
  s.questions.getD s.currentQuestionIndex ⟨0, "", "", "", "", none⟩

/-- The success path of fetchQuiz, lines 77 to 83: the started attempt
from the backend response fills quiz, attemptId and questions,
questionStartTime is reset to the current time and loading ends. -/
def fetchQuizSuccess (resp : QuizStartResponse) (now : Nat) (s : QuizState) : QuizState :=
  { s with quiz := some resp.quiz
           attemptId := some resp.attempt_id
           questions := resp.questions
           questionStartTime := now
           loading := false }

/-- handleAnswerChange, lines 113 to 117: store the picked option for the
current question id. -/
def handleAnswerChange (value : String) (s : QuizState) : QuizState :=
  { s with answers := mapSet s.answers (currentQuestion s).id value }

/-- handleNext, lines 119 to 130: always record the seconds spent on the
current question; advance the index and reset the start time only while
strictly below questions.length - 1.  now is the Date.now() reading. -/
def handleNext (now : Nat) (s : QuizState) : QuizState :=
  let timeSpent := (now - s.questionStartTime) / 1000
  let afterTimes := { s with questionTimes := mapSet s.questionTimes (currentQuestion s).id timeSpent }
  if s.currentQuestionIndex < s.questions.length - 1 then
    { afterTimes with currentQuestionIndex := s.currentQuestionIndex + 1
                      questionStartTime := now }
  else afterTimes

/-- handlePrevious, lines 132 to 137: step back and reset the start time
only while the index is strictly positive. -/
def handlePrevious (now : Nat) (s : QuizState) : QuizState :=
  if 0 < s.currentQuestionIndex then
    { s with currentQuestionIndex := s.currentQuestionIndex - 1
             questionStartTime := now }
  else s

/-- The onClick of a question navigator button for a given index, lines
286 to 293: record the seconds spent on the current question, then adopt
the clicked index and reset the start time.  The navigator renders one
button per element of questions, so index is always the position of an
existing question. -/
def jumpToQuestion (now : Nat) (index : Nat) (s : QuizState) : QuizState :=
  let timeSpent := (now - s.questionStartTime) / 1000
  { s with questionTimes := mapSet s.questionTimes (currentQuestion s).id timeSpent
           currentQuestionIndex := index
           questionStartTime := now }

/-- One element of the answers array posted on submit (interface
Answer). -/
structure SubmittedAnswer where
  question_id : Nat
  answer : String
  time_spent : Nat
  deriving DecidableEq, Repr

/-- The submit request: target URL and body. -/
structure SubmitRequest where
  url : String
  answers : List SubmittedAnswer
  deriving DecidableEq, Repr

/-- String interpolation of a nullable number into the URL template, as
in /quizzes/attempts/(attemptId)/submit. -/
def jsNumberOrNullToString : Option Nat → String
  | some n => toString n
  | none => "null"

def submitUrl (attemptId : Option Nat) : String :=
  "/quizzes/attempts/" ++ jsNumberOrNullToString attemptId ++ "/submit"

/-- handleSubmit, lines 139 to 175, up to the point where the HTTP POST
is issued: record the time for the current question, build one answers
entry per fetched question (the stored answer, or the empty string when
none is stored, since the empty string is also the falsy JavaScript
default the source supplies for an absent entry), and abort without any
request when
some entries are unanswered and the window.confirm dialog (whose outcome
is the confirmUnanswered argument) is declined.  The later navigation on
success does not touch the state fields the claims are about. -/
def handleSubmit (now : Nat) (confirmUnanswered : Bool) (s : QuizState) : Option SubmitRequest :=
  let timeSpent := (now - s.questionStartTime) / 1000
  let finalTimes := mapSet s.questionTimes (currentQuestion s).id timeSpent
  let answersArray : List SubmittedAnswer := s.questions.map (fun q =>
    { question_id := q.id
      answer := (s.answers q.id).getD ""
      time_spent := (finalTimes q.id).getD 0 })
  let unanswered := (answersArray.filter (fun a => a.answer == "")).length
  if 0 < unanswered ∧ confirmUnanswered = false then none
  else some { url := submitUrl s.attemptId, answers := answersArray }

end QuizTaking

namespace GradeSubmission

/-- A submission as loaded by GradeSubmission (the second component of
src/src/pages/LessonPlanner.tsx, interface Submission).  Nullable numeric
fields become Option over exact rationals. -/
structure Submission where
  id : Nat
  assignment_id : Nat
  assignment_title : String
  student_id : Nat
  student_name : String
  student_email : String
  content : Option String
  file_url : Option String
  submitted_at : String
  grade : Option ℚ
  feedback : Option String
  is_flagged : Bool
  plagiarism_score : Option ℚ
  deriving DecidableEq, Repr

/-- The assignment the submission belongs to (interface Assignment). -/
structure Assignment where
  id : Nat
  title : String
  chapter_name : String
  subject_name : String
  max_score : ℚ
  deriving DecidableEq, Repr

/-- The two text inputs of the grading form, the grade and feedback
useState hooks. -/
structure GradeFormState where
  grade : String
  feedback : String
  deriving DecidableEq, Repr

/-- Decimal rendering of the numbers this page converts with toString;
it stands in for Number.prototype.toString (the claims only compare the
produced strings with each other, never with literals whose JavaScript
spelling would differ). -/
def numToString (q : ℚ) : String :=
  toString q

/-- The body of the success branch of handleAIGrade, lines 464 to 469:
the response of POST /submissions/(submissionId)/ai-grade. -/
structure AIGradeResponse where
  grade : ℚ
  feedback : Option String
  deriving DecidableEq, Repr

/-- The grade and feedback refilling done by loadData, lines 411 to 415:
when the (re)loaded submission already carries a grade, both inputs are
overwritten from it, feedback null becoming the empty string; otherwise
the inputs are left alone. -/
def loadDataPrefill (submissionData : Submission) (st : GradeFormState) : GradeFormState :=
  match submissionData.grade with
  | some g => { grade := numToString g, feedback := submissionData.feedback.getD "" }
  | none => st

/-- Outcome of the ai-grade POST: failure (any thrown error) or success
carrying the response followed by the submission that the subsequent
loadData reload returns. -/
inductive AIGradeOutcome where
  | failure : AIGradeOutcome
  | success : AIGradeResponse → Submission → AIGradeOutcome

/-- handleAIGrade, lines 455 to 481: when the loaded submission has
neither content nor a file (JavaScript truthiness: null or empty string)
the handler only toasts and sends nothing; on a failed call the inputs
are untouched; on success the inputs take the grade (via toString) and
feedback (null coalesced to the empty string) of the response, after
which loadData runs again on the reloaded submission. -/
def handleAIGrade (submission : Option Submission) (outcome : AIGradeOutcome)
    (st : GradeFormState) : GradeFormState :=
  match submission with
  | none => st
  | some sub =>
    if jsFalsyOptStr sub.content && jsFalsyOptStr sub.file_url then st
    else
      match outcome with
      | .failure => st
      | .success resp reloaded =>
        loadDataPrefill reloaded
          { grade := numToString resp.grade, feedback := resp.feedback.getD "" }

/-- The render condition of the plagiarism warning Alert, line 562:
submission.is_flagged && submission.plagiarism_score &&
submission.plagiarism_score > 70, with JavaScript truthiness on the
nullable number (null and 0 are falsy). -/
def plagiarismAlertShown (submission : Submission) : Bool :=
  submission.is_flagged &&
    (match submission.plagiarism_score with
     | none => false
     | some sc => (sc != 0) && decide (70 < sc))

/-- The body of POST /submissions/(submissionId)/grade. -/
structure GradePostRequest where
  grade : ℚ
  feedback : Option String
  deriving DecidableEq, Repr

/-- handleSubmitGrade, lines 483 to 518, up to the point where the HTTP
POST is issued: reject (with an error toast and no request) an empty or
all-whitespace grade input, an input that parseFloat cannot parse (NaN),
a negative value, and, when the assignment is loaded, a value above
assignment.max_score; otherwise post the parsed grade with the trimmed
feedback, empty feedback becoming null. -/
def handleSubmitGrade (grade feedback : String) (assignment : Option Assignment) :
    Option GradePostRequest :=
  if grade == "" || jsTrimIsEmpty grade then none
  else
    match parseFloatModel grade with
    | none => none
    | some gradeValue =>
      if gradeValue < 0 then none
      else if (match assignment with
               | some a => decide (a.max_score < gradeValue)
               | none => false) then none
      else some { grade := gradeValue
                  feedback := if jsTrimIsEmpty feedback then none else some feedback.trim }

end GradeSubmission

namespace CreateAssignment

/-- The formData state of CreateAssignment
(src/src/pages/CreateAssignment.tsx, lines 33 to 47). -/
structure AssignmentFormData where
  title : String
  description : String
  instructions : String
  subject_id : String
  chapter_id : String
  due_date : String
  max_score : Int
  time_limit : String
  ai_assistance_enabled : Bool
  plagiarism_check_enabled : Bool
  is_published : Bool
  assignment_type : String
  requires_lab_report : Bool
  deriving DecidableEq, Repr

/-- The fields of the POST /ai/generate-assignment response that
generateWithAI reads. -/
structure GeneratedAssignment where
  title : String
  description : String
  instructions : String
  deriving DecidableEq, Repr

/-- generateWithAI, lines 101 to 130: with no chapter selected (falsy
empty string) only an error toast, no request; on a failed call the form
is untouched; on success the spread of formData with only title,
description and instructions replaced by the response values. -/
def generateWithAI (f : AssignmentFormData) (response : Option GeneratedAssignment) :
    AssignmentFormData :=
  if f.chapter_id == "" then f
  else
    match response with
    | none => f
    | some r => { f with title := r.title
                         description := r.description
                         instructions := r.instructions }

end CreateAssignment

namespace CreateExam

/-- The formData state of CreateExam (the second component of
src/src/pages/CreateAssignment.tsx, lines 391 to 406); every text input
holds a string. -/
structure ExamFormData where
  title : String
  description : String
  exam_type : String
  chapter_id : String
  time_limit : String
  passing_score : String
  total_points : String
  strict_mode : Bool
  available_from : String
  available_until : String
  max_attempts : String
  shuffle_questions : Bool
  show_results_immediately : Bool
  question_count : String
  deriving DecidableEq, Repr

/-- The POST /exams/ payload built by handleSubmit of CreateExam, lines
452 to 472, with the questions_config object flattened into the three
qc fields.  Option Int and Option Rat stand for number-or-NaN results of
the parsers; the two availability fields go through the Date constructor
and toISOString, which this embedding does not model (no claim reads
them). -/
structure ExamPayload where
  title : String
  description : Option String
  exam_type : String
  chapter_id : Option Int
  time_limit : Option Int
  passing_score : Option ℚ
  total_points : Option ℚ
  strict_mode : Bool
  max_attempts : Option Int
  shuffle_questions : Bool
  show_results_immediately : Bool
  question_count : Option Int
  qc_beginner : Option Int
  qc_medium : Option Int
  qc_advanced : Option Int
  deriving DecidableEq, Repr

/-- Math.floor of a parsed number times a constant ratio, with NaN
propagation: Math.floor(NaN * r) is NaN.  The double literals 0.3, 0.5
and 0.2 of the source are modelled by the exact rationals 3/10, 5/10 and
2/10; at every integer count in the form range the double product and the
exact product have the same floor. -/
def jsFloorMul (x : Option Int) (r : ℚ) : Option Int :=
  match x with
  | none => none
  | some n => some ⌊(n : ℚ) * r⌋

/-- handleSubmit of CreateExam, lines 441 to 472, up to the point where
the HTTP POST is issued: with any of chapter_id, title, available_from,
available_until empty (falsy), an error toast and no request; otherwise
the payload with the three questions_config counts floored from
parseInt(question_count) times 0.3, 0.5 and 0.2. -/
def buildExamPayload (f : ExamFormData) : Option ExamPayload :=
  if f.chapter_id == "" || f.title == "" || f.available_from == "" || f.available_until == "" then
    none
  else
    some { title := f.title
           description := if f.description == "" then none else some f.description
           exam_type := f.exam_type
           chapter_id := parseIntModel f.chapter_id
           time_limit := parseIntModel f.time_limit
           passing_score := parseFloatModel f.passing_score
           total_points := parseFloatModel f.total_points
           strict_mode := f.strict_mode
           max_attempts := parseIntModel f.max_attempts
           shuffle_questions := f.shuffle_questions
           show_results_immediately := f.show_results_immediately
           question_count := parseIntModel f.question_count
           qc_beginner := jsFloorMul (parseIntModel f.question_count) (3 / 10)
           qc_medium := jsFloorMul (parseIntModel f.question_count) (5 / 10)
           qc_advanced := jsFloorMul (parseIntModel f.question_count) (2 / 10) }

end CreateExam

namespace QuizTaking

/-- Concrete data used by the witness theorems below: a started quiz with
two questions of which only the first is answered. -/
def sampleQuestion1 : Question :=
  ⟨11, "What is Ohm law", "multiple_choice", "beginner", "remember", none⟩

def sampleQuestion2 : Question :=
  ⟨22, "What is KCL", "multiple_choice", "beginner", "remember", none⟩

def sampleQuiz : Quiz :=
  ⟨3, 2, "Chapter quiz", "Basics", "standard", none, 60⟩

def sampleStartResponse : QuizStartResponse :=
  ⟨7, sampleQuiz, [sampleQuestion1, sampleQuestion2]⟩

def sampleState : QuizState :=
  { loading := false
    quiz := some sampleQuiz
    attemptId := some 7
    questions := [sampleQuestion1, sampleQuestion2]
    currentQuestionIndex := 0
    answers := fun q => if q = 11 then some "A" else none
    questionStartTime := 1000
    questionTimes := fun _ => none
    submitting := false }

/-- The request that handleSubmit issues from sampleState at time 3000
with the confirm dialog accepted. -/
def sampleSubmitRequest : SubmitRequest :=
  { url := "/quizzes/attempts/7/submit"
    answers := [⟨11, "A", 2⟩, ⟨22, "", 0⟩] }

end QuizTaking

namespace GradeSubmission

/-- Concrete data used by the witness theorems below. -/
def sampleSubmission : Submission :=
  { id := 5
    assignment_id := 3
    assignment_title := "Circuit Analysis Assignment"
    student_id := 9
    student_name := "Student One"
    student_email := "student@example.com"
    content := some "my essay text"
    file_url := none
    submitted_at := "2025-01-01T10:00:00Z"
    grade := none
    feedback := none
    is_flagged := true
    plagiarism_score := some 80 }

def sampleAIGradeResponse : AIGradeResponse :=
  ⟨90, some "Well argued"⟩

/-- The submission as reloaded after the ai-grade call stored its
result. -/
def sampleReloadedSubmission : Submission :=
  { sampleSubmission with grade := some 90, feedback := some "Well argued" }

def sampleAssignment : Assignment :=
  ⟨3, "Circuit Analysis Assignment", "DC Circuits", "Circuit Theory", 100⟩

end GradeSubmission

namespace CreateAssignment

/-- Concrete data used by the witness theorem below. -/
def sampleFormData : AssignmentFormData :=
  { title := "Circuit Analysis Assignment"
    description := "Analyze resistive circuits"
    instructions := "Show your work"
    subject_id := "1"
    chapter_id := "4"
    due_date := ""
    max_score := 100
    time_limit := "120"
    ai_assistance_enabled := true
    plagiarism_check_enabled := true
    is_published := true
    assignment_type := "GENERAL"
    requires_lab_report := false }

def sampleGenerated : GeneratedAssignment :=
  ⟨"Generated title", "Generated description", "Generated instructions"⟩

end CreateAssignment

namespace CreateExam

/-- Concrete data used by the witness theorem below: a filled form asking
for 31 questions. -/
def sampleExamForm : ExamFormData :=
  { title := "Midterm Exam"
    description := "Covers chapters 1 to 3"
    exam_type := "midterm"
    chapter_id := "5"
    time_limit := "90"
    passing_score := "60"
    total_points := "100"
    strict_mode := true
    available_from := "2025-01-01T08:00"
    available_until := "2025-01-08T08:00"
    max_attempts := "1"
    shuffle_questions := true
    show_results_immediately := false
    question_count := "31" }

/-- The payload handleSubmit builds from sampleExamForm, spelled with the
same field computations so that the build equation is definitional. -/
def sampleExamPayload : ExamPayload :=
  { title := "Midterm Exam"
    description := some "Covers chapters 1 to 3"
    exam_type := "midterm"
    chapter_id := parseIntModel "5"
    time_limit := parseIntModel "90"
    passing_score := parseFloatModel "60"
    total_points := parseFloatModel "100"
    strict_mode := true
    max_attempts := parseIntModel "1"
    shuffle_questions := true
    show_results_immediately := false
    question_count := parseIntModel "31"
    qc_beginner := jsFloorMul (parseIntModel "31") (3 / 10)
    qc_medium := jsFloorMul (parseIntModel "31") (5 / 10)
    qc_advanced := jsFloorMul (parseIntModel "31") (2 / 10) }

end CreateExam

section SubjectsTheorems

/-- Claim C1, counterexample: the claim says that whether the student may
open a quiz from the subject-browsing page is decided entirely behind the
HTTP API, with no client-side computation from the completion status of
other chapters.  On the contrary, with the same user and the same
chapters, handleQuizAccess on the second chapter blocks with a toast when
the client-held completion set misses chapter 1 and navigates when it
holds chapter 1: the decision is computed in this repository from the
completion status of another chapter. -/
theorem subjects_quiz_access_client_side_counterexample :
    Subjects.handleQuizAccess (some ⟨"student"⟩) [] 2 ⟨2, "Chapter Two", 2⟩
        [⟨1, "Chapter One", 1⟩, ⟨2, "Chapter Two", 2⟩] = .lockedToast ∧
    Subjects.handleQuizAccess (some ⟨"student"⟩) [1] 2 ⟨2, "Chapter Two", 2⟩
        [⟨1, "Chapter One", 1⟩, ⟨2, "Chapter Two", 2⟩] = .navigateQuiz 2 := by
  decide

/-- Claim C1 as amended: the Subjects page does implement a client-side
chapter-locking rule.  For a signed-in student, a chapter that sits at
position i + 1 of its subject chapter list sorted by order is locked
exactly when the id of the chapter at position i is absent from the
client-held completed set; handleQuizAccess navigates to the quiz exactly
when this rule says unlocked; users that are not signed-in students are
never locked, and the first chapter of the sorted list is never
locked. -/
theorem subjects_chapter_locking_rule_client_implementation
    (u : Subjects.User) (completed : List Nat) (ch prev : Subjects.Chapter)
    (chs : List Subjects.Chapter) (i : Nat)
    (hu : u.role = "student")
    (hidx : (Subjects.sortByOrder chs).findIdx? (fun c => c.id == ch.id) = some (i + 1))
    (hprev : (Subjects.sortByOrder chs).get? i = some prev) :
    Subjects.isChapterLocked (some u) completed ch chs = ! (completed.contains prev.id) ∧
    (∀ user compl cid ch2 chs2,
      Subjects.handleQuizAccess user compl cid ch2 chs2 =
        if Subjects.isChapterLocked user compl ch2 chs2 then .lockedToast
        else .navigateQuiz cid) ∧
    (∀ compl ch2 chs2, Subjects.isChapterLocked none compl ch2 chs2 = false) ∧
    (∀ compl ch2 chs2,
      (Subjects.sortByOrder chs2).findIdx? (fun c => c.id == ch2.id) = some 0 →
      Subjects.isChapterLocked (some u) compl ch2 chs2 = false) := by
  refine ⟨?_, fun user compl cid ch2 chs2 => rfl, fun compl ch2 chs2 => rfl, ?_⟩
  · simp only [Subjects.isChapterLocked, hu, ne_eq, not_true_eq_false, if_false, hidx, hprev]
  · intro compl ch2 chs2 h
    simp only [Subjects.isChapterLocked, hu, ne_eq, not_true_eq_false, if_false, h]

/-- Witness for the amended claim C1 at a concrete input: two chapters in
order, the first completed, so the second is reported unlocked. -/
theorem subjects_chapter_locking_rule_client_implementation_witness :
    Subjects.isChapterLocked (some ⟨"student"⟩) [1] ⟨2, "Chapter Two", 2⟩
        [⟨1, "Chapter One", 1⟩, ⟨2, "Chapter Two", 2⟩] =
      ! ([1].contains (1 : Nat)) :=
  (subjects_chapter_locking_rule_client_implementation ⟨"student"⟩ [1]
      ⟨2, "Chapter Two", 2⟩ ⟨1, "Chapter One", 1⟩
      [⟨1, "Chapter One", 1⟩, ⟨2, "Chapter Two", 2⟩] 0
      rfl (by decide) (by decide)).1

/-- Claim C3: for a signed-in student, the forceLocked override marks
every chapter with order above 1 as locked and disables its quiz button
regardless of the completion set, and a chapter whose quiz button is
enabled must have order exactly 1 (chapter orders being at least 1). -/
theorem subjects_order_gt_one_always_locked
    (u : Subjects.User) (completed : List Nat) (ch : Subjects.Chapter)
    (chs : List Subjects.Chapter)
    (hu : u.role = "student") (hch : ch ∈ chs) (hord : ∀ c ∈ chs, 1 ≤ c.order) :
    (1 < ch.order →
      Subjects.forceLocked (some u) ch = true ∧
      Subjects.quizButtonDisabled (some u) completed ch chs = true) ∧
    (Subjects.quizButtonDisabled (some u) completed ch chs = false → ch.order = 1) := by
  constructor
  · intro hgt
    have hf : Subjects.forceLocked (some u) ch = true := by
      simp [Subjects.forceLocked, Subjects.isStudentUser, hu, hgt]
    exact ⟨hf, by simp [Subjects.quizButtonDisabled, hf]⟩
  · intro hdis
    have hf : Subjects.forceLocked (some u) ch = false := by
      rcases Bool.or_eq_false_iff.mp hdis with ⟨-, h⟩
      exact h
    have : ¬ (1 < ch.order) := by
      simpa [Subjects.forceLocked, Subjects.isStudentUser, hu] using hf
    exact le_antisymm (not_lt.mp this) (hord ch hch)

/-- Witness for claim C3 at a concrete input: a student sees the quiz
button of an order-2 chapter disabled even though the previous chapter is
completed. -/
theorem subjects_order_gt_one_always_locked_witness :
    Subjects.quizButtonDisabled (some ⟨"student"⟩) [1] ⟨2, "Chapter Two", 2⟩
        [⟨1, "Chapter One", 1⟩, ⟨2, "Chapter Two", 2⟩] = true :=
  ((subjects_order_gt_one_always_locked ⟨"student"⟩ [1] ⟨2, "Chapter Two", 2⟩
      [⟨1, "Chapter One", 1⟩, ⟨2, "Chapter Two", 2⟩]
      rfl (by decide) (by decide)).1 (by decide)).2

end SubjectsTheorems

section QuizTakingTheorems

/-- Claim C2: in QuizTaking, every navigation operation (handleNext,
handlePrevious, jump-to-question) leaves the answers map unchanged, and
when handleSubmit issues its request the request body carries exactly one
entry per fetched question, in order, whose answer field is the value
recorded for that question in the answers map, or the empty string when
no value is recorded. -/
theorem quiztaking_answers_never_lost
    (now1 now2 now3 now4 : Nat) (idx : Nat) (s : QuizTaking.QuizState) (confirmOk : Bool) :
    (QuizTaking.handleNext now1 s).answers = s.answers ∧
    (QuizTaking.handlePrevious now2 s).answers = s.answers ∧
    (QuizTaking.jumpToQuestion now3 idx s).answers = s.answers ∧
    (∀ req, QuizTaking.handleSubmit now4 confirmOk s = some req →
      req.answers.map (fun a => (a.question_id, a.answer)) =
        s.questions.map (fun q => (q.id, (s.answers q.id).getD ""))) := by
  refine ⟨?_, ?_, rfl, ?_⟩
  · simp only [QuizTaking.handleNext]
    split <;> rfl
  · simp only [QuizTaking.handlePrevious]
    split <;> rfl
  · intro req hreq
    simp only [QuizTaking.handleSubmit] at hreq
    split at hreq
    · cases hreq
    · cases hreq
      rw [List.map_map]
      rfl

/-- Witness for claim C2 at a concrete state: navigation keeps the one
stored answer, and the submitted body lists the stored answer for
question 11 and the empty string for the unanswered question 22. -/
theorem quiztaking_answers_never_lost_witness :
    (QuizTaking.handleNext 2000 QuizTaking.sampleState).answers =
        QuizTaking.sampleState.answers ∧
    QuizTaking.sampleSubmitRequest.answers.map (fun a => (a.question_id, a.answer)) =
      QuizTaking.sampleState.questions.map
        (fun q => (q.id, (QuizTaking.sampleState.answers q.id).getD "")) :=
  ⟨(quiztaking_answers_never_lost 2000 0 0 3000 0 QuizTaking.sampleState true).1,
   (quiztaking_answers_never_lost 2000 0 0 3000 0 QuizTaking.sampleState true).2.2.2
     QuizTaking.sampleSubmitRequest (by decide)⟩

/-- Claim C4: with the current index inside the non-empty question list,
handleNext advances the index exactly when it is below
questions.length - 1, handlePrevious steps back exactly when it is above
0, the navigator click adopts exactly the clicked index of an existing
question, none of them changes the question list, and the index stays
strictly below questions.length after each operation. -/
theorem quiztaking_index_in_bounds
    (now : Nat) (idx : Nat) (s : QuizTaking.QuizState)
    (hs : s.currentQuestionIndex < s.questions.length)
    (hidx : idx < s.questions.length) :
    ((QuizTaking.handleNext now s).questions = s.questions ∧
     (QuizTaking.handleNext now s).currentQuestionIndex =
       (if s.currentQuestionIndex < s.questions.length - 1 then s.currentQuestionIndex + 1
        else s.currentQuestionIndex) ∧
     (QuizTaking.handleNext now s).currentQuestionIndex < s.questions.length) ∧
    ((QuizTaking.handlePrevious now s).questions = s.questions ∧
     (QuizTaking.handlePrevious now s).currentQuestionIndex =
       (if 0 < s.currentQuestionIndex then s.currentQuestionIndex - 1
        else s.currentQuestionIndex) ∧
     (QuizTaking.handlePrevious now s).currentQuestionIndex < s.questions.length) ∧
    ((QuizTaking.jumpToQuestion now idx s).questions = s.questions ∧
     (QuizTaking.jumpToQuestion now idx s).currentQuestionIndex = idx ∧
     (QuizTaking.jumpToQuestion now idx s).currentQuestionIndex < s.questions.length) := by
  have hnextq : (QuizTaking.handleNext now s).questions = s.questions := by
    simp only [QuizTaking.handleNext]
    split <;> rfl
  have hnext : (QuizTaking.handleNext now s).currentQuestionIndex =
      (if s.currentQuestionIndex < s.questions.length - 1 then s.currentQuestionIndex + 1
       else s.currentQuestionIndex) := by
    simp only [QuizTaking.handleNext]
    split <;> simp_all
  have hprevq : (QuizTaking.handlePrevious now s).questions = s.questions := by
    simp only [QuizTaking.handlePrevious]
    split <;> rfl
  have hprev : (QuizTaking.handlePrevious now s).currentQuestionIndex =
      (if 0 < s.currentQuestionIndex then s.currentQuestionIndex - 1
       else s.currentQuestionIndex) := by
    simp only [QuizTaking.handlePrevious]
    split <;> simp_all
  refine ⟨⟨hnextq, hnext, ?_⟩, ⟨hprevq, hprev, ?_⟩, rfl, rfl, hidx⟩
  · rw [hnext]
    split <;> omega
  · rw [hprev]
    split <;> omega

/-- Witness for claim C4 at a concrete state: from index 0 of two
questions, next moves to 1, previous stays at 0, and a navigator click on
button 2 selects index 1, all within bounds. -/
theorem quiztaking_index_in_bounds_witness :
    ((QuizTaking.handleNext 2000 QuizTaking.sampleState).currentQuestionIndex <
        QuizTaking.sampleState.questions.length) ∧
    ((QuizTaking.handlePrevious 2000 QuizTaking.sampleState).currentQuestionIndex <
        QuizTaking.sampleState.questions.length) ∧
    (QuizTaking.jumpToQuestion 2000 1 QuizTaking.sampleState).currentQuestionIndex = 1 :=
  ⟨(quiztaking_index_in_bounds 2000 1 QuizTaking.sampleState (by decide) (by decide)).1.2.2,
   (quiztaking_index_in_bounds 2000 1 QuizTaking.sampleState (by decide) (by decide)).2.1.2.2,
   (quiztaking_index_in_bounds 2000 1 QuizTaking.sampleState (by decide) (by decide)).2.2.2.1⟩

/-- Claim C8: the attempt is identified solely by the backend: the stored
attemptId is exactly the attempt_id of the start response, no later
operation modifies it, and the submit request goes to
/quizzes/attempts/(that same id)/submit. -/
theorem quiztaking_attempt_id_backend_owned
    (resp : QuizTaking.QuizStartResponse) (now0 now1 now2 now3 now4 : Nat)
    (idx : Nat) (v : String) (s t : QuizTaking.QuizState) (confirmOk : Bool)
    (a : Nat) (req : QuizTaking.SubmitRequest)
    (ht : t.attemptId = some a)
    (hreq : QuizTaking.handleSubmit now4 confirmOk t = some req) :
    (QuizTaking.fetchQuizSuccess resp now0 s).attemptId = some resp.attempt_id ∧
    (QuizTaking.handleAnswerChange v t).attemptId = t.attemptId ∧
    (QuizTaking.handleNext now1 t).attemptId = t.attemptId ∧
    (QuizTaking.handlePrevious now2 t).attemptId = t.attemptId ∧
    (QuizTaking.jumpToQuestion now3 idx t).attemptId = t.attemptId ∧
    req.url = "/quizzes/attempts/" ++ toString a ++ "/submit" := by
  refine ⟨rfl, rfl, ?_, ?_, rfl, ?_⟩
  · simp only [QuizTaking.handleNext]
    split <;> rfl
  · simp only [QuizTaking.handlePrevious]
    split <;> rfl
  · simp only [QuizTaking.handleSubmit] at hreq
    split at hreq
    · cases hreq
    · cases hreq
      simp [QuizTaking.submitUrl, ht, QuizTaking.jsNumberOrNullToString]

/-- Witness for claim C8 at a concrete state: the id stored from the
start response is 7, navigation keeps it, and the submit URL embeds 7. -/
theorem quiztaking_attempt_id_backend_owned_witness :
    (QuizTaking.fetchQuizSuccess QuizTaking.sampleStartResponse 1000
        QuizTaking.sampleState).attemptId = some QuizTaking.sampleStartResponse.attempt_id ∧
    QuizTaking.sampleSubmitRequest.url = "/quizzes/attempts/" ++ toString (7 : Nat) ++ "/submit" :=
  ⟨(quiztaking_attempt_id_backend_owned QuizTaking.sampleStartResponse 1000 0 0 0 3000 0 "A"
      QuizTaking.sampleState QuizTaking.sampleState true 7 QuizTaking.sampleSubmitRequest
      rfl (by decide)).1,
   (quiztaking_attempt_id_backend_owned QuizTaking.sampleStartResponse 1000 0 0 0 3000 0 "A"
      QuizTaking.sampleState QuizTaking.sampleState true 7 QuizTaking.sampleSubmitRequest
      rfl (by decide)).2.2.2.2.2⟩

end QuizTakingTheorems

section GradeSubmissionTheorems

/-- Claim C5: on a successful ai-grade call (followed by the reload of
the stored submission, which then carries the same grade and feedback),
the local grade input is exactly the string of the grade the backend
returned and the feedback input is exactly the returned feedback (null
becoming the empty string); on a failed call both inputs are left
unchanged. -/
theorem gradesubmission_ai_grade_backend_values
    (sub reloaded : GradeSubmission.Submission) (resp : GradeSubmission.AIGradeResponse)
    (st st2 : GradeSubmission.GradeFormState)
    (hok : (jsFalsyOptStr sub.content && jsFalsyOptStr sub.file_url) = false)
    (hg : reloaded.grade = some resp.grade) (hf : reloaded.feedback = resp.feedback) :
    GradeSubmission.handleAIGrade (some sub) (.success resp reloaded) st =
      { grade := GradeSubmission.numToString resp.grade
        feedback := resp.feedback.getD "" } ∧
    GradeSubmission.handleAIGrade (some sub) .failure st2 = st2 := by
  constructor
  · simp only [GradeSubmission.handleAIGrade, hok, Bool.false_eq_true, if_false,
      GradeSubmission.loadDataPrefill, hg, hf]
  · simp only [GradeSubmission.handleAIGrade, hok, Bool.false_eq_true, if_false]

/-- Witness for claim C5 at a concrete input: the backend grades 90 with
feedback, and the form fields take exactly those values while a failed
call leaves a partly filled form alone. -/
theorem gradesubmission_ai_grade_backend_values_witness :
    GradeSubmission.handleAIGrade (some GradeSubmission.sampleSubmission)
        (.success GradeSubmission.sampleAIGradeResponse GradeSubmission.sampleReloadedSubmission)
        ⟨"", ""⟩ =
      { grade := GradeSubmission.numToString GradeSubmission.sampleAIGradeResponse.grade
        feedback := GradeSubmission.sampleAIGradeResponse.feedback.getD "" } ∧
    GradeSubmission.handleAIGrade (some GradeSubmission.sampleSubmission) .failure ⟨"50", "draft"⟩ =
      ⟨"50", "draft"⟩ :=
  ⟨(gradesubmission_ai_grade_backend_values GradeSubmission.sampleSubmission
      GradeSubmission.sampleReloadedSubmission GradeSubmission.sampleAIGradeResponse
      ⟨"", ""⟩ ⟨"50", "draft"⟩ (by decide) rfl rfl).1,
   (gradesubmission_ai_grade_backend_values GradeSubmission.sampleSubmission
      GradeSubmission.sampleReloadedSubmission GradeSubmission.sampleAIGradeResponse
      ⟨"", ""⟩ ⟨"50", "draft"⟩ (by decide) rfl rfl).2⟩

/-- Claim C7: the plagiarism warning alert is rendered for a submission
exactly when its is_flagged field is true and its plagiarism_score is a
truthy (non-null, non-zero) value above 70; the condition reads nothing
but these backend-provided fields. -/
theorem gradesubmission_plagiarism_alert_iff (sub : GradeSubmission.Submission) :
    GradeSubmission.plagiarismAlertShown sub = true ↔
      sub.is_flagged = true ∧
        ∃ sc, sub.plagiarism_score = some sc ∧ sc ≠ 0 ∧ 70 < sc := by
  cases hsc : sub.plagiarism_score with
  | none => simp [GradeSubmission.plagiarismAlertShown, hsc]
  | some sc =>
    simp only [GradeSubmission.plagiarismAlertShown, hsc, Bool.and_eq_true, bne_iff_ne,
      decide_eq_true_eq, Option.some.injEq]
    constructor
    · rintro ⟨hfl, hne, hgt⟩
      exact ⟨hfl, sc, rfl, hne, hgt⟩
    · rintro ⟨hfl, sc2, heq, hne, hgt⟩
      cases heq
      exact ⟨hfl, hne, hgt⟩

/-- Witness for claim C7 at a concrete input: a flagged submission with
score 80 shows the alert. -/
theorem gradesubmission_plagiarism_alert_iff_witness :
    GradeSubmission.plagiarismAlertShown GradeSubmission.sampleSubmission = true :=
  (gradesubmission_plagiarism_alert_iff GradeSubmission.sampleSubmission).mpr
    ⟨rfl, 80, rfl, by norm_num, by norm_num⟩

/-- An all-whitespace string has no digit for the parseFloat model to
read, so it parses to NaN. -/
theorem parseFloatModel_none_of_trim_empty (s : String) (h : jsTrimIsEmpty s = true) :
    parseFloatModel s = none := by
  have hd : s.data.dropWhile Char.isWhitespace = [] := by
    rw [List.dropWhile_eq_nil_iff]
    intro c hc
    exact List.all_eq_true.mp h c hc
  have hparts : parseFloatParts s = none := by
    unfold parseFloatParts
    rw [hd]
    rfl
  unfold parseFloatModel
  rw [hparts]
  rfl

/-- Claim C10: handleSubmitGrade issues the grade POST exactly when the
grade input is non-empty and parses to a non-NaN value that is at least 0
and at most the loaded assignment max_score; when it posts, the body
carries that parsed value and the trimmed feedback (empty feedback
becoming null). -/
theorem gradesubmission_submit_grade_guard
    (grade feedback : String) (a : GradeSubmission.Assignment) :
    ((GradeSubmission.handleSubmitGrade grade feedback (some a)).isSome = true ↔
      grade ≠ "" ∧ ∃ v, parseFloatModel grade = some v ∧ 0 ≤ v ∧ v ≤ a.max_score) ∧
    (∀ req, GradeSubmission.handleSubmitGrade grade feedback (some a) = some req →
      ∃ v, parseFloatModel grade = some v ∧ req.grade = v ∧
        req.feedback = (if jsTrimIsEmpty feedback then none else some feedback.trim)) := by
  constructor
  · cases hguard : (grade == "" || jsTrimIsEmpty grade) with
    | true =>
      simp only [GradeSubmission.handleSubmitGrade, hguard, if_true, Option.isSome_none,
        Bool.false_eq_true, false_iff]
      rintro ⟨hne, v, hv, -, -⟩
      rcases Bool.or_eq_true_iff.mp hguard with hempty | hws
      · exact hne (by simpa using hempty)
      · rw [parseFloatModel_none_of_trim_empty grade hws] at hv
        cases hv
    | false =>
      rcases Bool.or_eq_false_iff.mp hguard with ⟨hempty, -⟩
      have hne : grade ≠ "" := by simpa using hempty
      simp only [GradeSubmission.handleSubmitGrade, hguard, Bool.false_eq_true, if_false]
      cases hv : parseFloatModel grade with
      | none => simp [hv]
      | some v =>
        simp only [hv, Option.some.injEq]
        constructor
        · intro hsome
          refine ⟨hne, v, rfl, ?_, ?_⟩ <;>
          · by_contra hcon
            revert hsome
            simp [not_le.mp hcon]
        · rintro ⟨-, v2, hv2, h0, hmax⟩
          cases hv2
          simp [not_lt.mpr h0, not_lt.mpr hmax]
  · intro req hreq
    simp only [GradeSubmission.handleSubmitGrade] at hreq
    split at hreq
    · cases hreq
    · revert hreq
      cases hv : parseFloatModel grade with
      | none => intro hreq; cases hreq
      | some v =>
        simp only
        split
        · intro hreq; cases hreq
        · split
          · intro hreq; cases hreq
          · intro hreq
            cases hreq
            exact ⟨v, rfl, rfl, rfl⟩

/-- Witness for claim C10 at a concrete input: the grade string 85.5
against a max score of 100 passes the guard, so a request is issued. -/
theorem gradesubmission_submit_grade_guard_witness :
    (GradeSubmission.handleSubmitGrade "85.5" "Well done" (some GradeSubmission.sampleAssignment)).isSome = true :=
  (gradesubmission_submit_grade_guard "85.5" "Well done" GradeSubmission.sampleAssignment).1.mpr
    ⟨by decide,
     171 / 2,
     by rw [parseFloatModel, show parseFloatParts "85.5" = some (855, 1) from by decide]
        norm_num,
     by norm_num, by norm_num [GradeSubmission.sampleAssignment]⟩

end GradeSubmissionTheorems

section CreateAssignmentTheorems

/-- Claim C6: with a chapter selected, a successful generateWithAI call
copies title, description and instructions verbatim from the backend
response into the form, and every other form field keeps its previous
value; a failed call changes nothing. -/
theorem createassignment_generate_ai_frame
    (f : CreateAssignment.AssignmentFormData) (r : CreateAssignment.GeneratedAssignment)
    (h : f.chapter_id ≠ "") :
    ((CreateAssignment.generateWithAI f (some r)).title = r.title ∧
     (CreateAssignment.generateWithAI f (some r)).description = r.description ∧
     (CreateAssignment.generateWithAI f (some r)).instructions = r.instructions) ∧
    ((CreateAssignment.generateWithAI f (some r)).subject_id = f.subject_id ∧
     (CreateAssignment.generateWithAI f (some r)).chapter_id = f.chapter_id ∧
     (CreateAssignment.generateWithAI f (some r)).due_date = f.due_date ∧
     (CreateAssignment.generateWithAI f (some r)).max_score = f.max_score ∧
     (CreateAssignment.generateWithAI f (some r)).time_limit = f.time_limit ∧
     (CreateAssignment.generateWithAI f (some r)).ai_assistance_enabled = f.ai_assistance_enabled ∧
     (CreateAssignment.generateWithAI f (some r)).plagiarism_check_enabled = f.plagiarism_check_enabled ∧
     (CreateAssignment.generateWithAI f (some r)).is_published = f.is_published ∧
     (CreateAssignment.generateWithAI f (some r)).assignment_type = f.assignment_type ∧
     (CreateAssignment.generateWithAI f (some r)).requires_lab_report = f.requires_lab_report) ∧
    CreateAssignment.generateWithAI f none = f := by
  have hb : (f.chapter_id == "") = false := by
    simpa using h
  simp [CreateAssignment.generateWithAI, hb]

/-- Witness for claim C6 at a concrete input: the generated text lands in
the three text fields and the settings keep their values. -/
theorem createassignment_generate_ai_frame_witness :
    (CreateAssignment.generateWithAI CreateAssignment.sampleFormData
        (some CreateAssignment.sampleGenerated)).title =
      CreateAssignment.sampleGenerated.title ∧
    (CreateAssignment.generateWithAI CreateAssignment.sampleFormData
        (some CreateAssignment.sampleGenerated)).chapter_id =
      CreateAssignment.sampleFormData.chapter_id :=
  ⟨(createassignment_generate_ai_frame CreateAssignment.sampleFormData
      CreateAssignment.sampleGenerated (by decide)).1.1,
   (createassignment_generate_ai_frame CreateAssignment.sampleFormData
      CreateAssignment.sampleGenerated (by decide)).2.1.2.1⟩

end CreateAssignmentTheorems

section CreateExamTheorems

/-- Claim C9: the exam payload distributes the requested question count n
as floor(n * 0.3) beginner, floor(n * 0.5) medium and floor(n * 0.2)
advanced questions, and at n = 31 these are 9, 15 and 6, which sum to 30,
strictly less than 31: the per-difficulty distribution does not always
account for every requested question. -/
theorem createexam_questions_config_floors
    (f : CreateExam.ExamFormData) (p : CreateExam.ExamPayload) (n : Int)
    (hp : CreateExam.buildExamPayload f = some p)
    (hn : parseIntModel f.question_count = some n) :
    (p.qc_beginner = some ⌊(n : ℚ) * (3 / 10)⌋ ∧
     p.qc_medium = some ⌊(n : ℚ) * (5 / 10)⌋ ∧
     p.qc_advanced = some ⌊(n : ℚ) * (2 / 10)⌋) ∧
    (n = 31 →
      p.qc_beginner = some 9 ∧ p.qc_medium = some 15 ∧ p.qc_advanced = some 6 ∧
      (9 : Int) + 15 + 6 < 31) := by
  unfold CreateExam.buildExamPayload at hp
  split at hp
  · cases hp
  · cases hp
    have hb : CreateExam.jsFloorMul (parseIntModel f.question_count) (3 / 10) =
        some ⌊(n : ℚ) * (3 / 10)⌋ := by
      rw [hn]; rfl
    have hm : CreateExam.jsFloorMul (parseIntModel f.question_count) (5 / 10) =
        some ⌊(n : ℚ) * (5 / 10)⌋ := by
      rw [hn]; rfl
    have ha : CreateExam.jsFloorMul (parseIntModel f.question_count) (2 / 10) =
        some ⌊(n : ℚ) * (2 / 10)⌋ := by
      rw [hn]; rfl
    refine ⟨⟨hb, hm, ha⟩, ?_⟩
    rintro rfl
    refine ⟨?_, ?_, ?_, by norm_num⟩
    · rw [hb]; norm_num
    · rw [hm]; norm_num
    · rw [ha]; norm_num

/-- Witness for claim C9 at the concrete form requesting 31 questions:
the payload carries 9 beginner, 15 medium and 6 advanced questions, one
short of the requested 31. -/
theorem createexam_questions_config_floors_witness :
    CreateExam.sampleExamPayload.qc_beginner = some 9 ∧
    CreateExam.sampleExamPayload.qc_medium = some 15 ∧
    CreateExam.sampleExamPayload.qc_advanced = some 6 ∧
    (9 : Int) + 15 + 6 < 31 :=
  (createexam_questions_config_floors CreateExam.sampleExamForm
      CreateExam.sampleExamPayload 31 rfl (by decide)).2 rfl

end CreateExamTheorems
